import Mathlib

/-!
Verification of the admission-control / rate-limiting core of the repository
(`src/b_provider_adapter/token_controller.py`) against its natural-language
specification.

The Python module is shallowly embedded below:

* `CallRecord`          ↦ the `CallRecord` dataclass (ledger entry);
* `ControllerState`     ↦ the mutable state of one `TokenController` instance
  (`records` deque, the `_tpm_counter` / `_rpm_counter` aggregates, the
  `in_flight` map — kept as the list of its keys — and the value of the
  concurrency semaphore, kept as the number of currently available permits);
* `_default_estimator`, `_cleanup_expired`, `wait_before_call_if_needed`,
  `wait_after_call_if_needed`, `cleanup_call` ↦ the methods of the same names,
  as explicit state transformers.  Call ids (produced by `uuid.uuid4()` in the
  source) and instants (produced by `time.monotonic()`) are passed in as
  parameters.  Exceptions are modelled with `Except`.
* `acquire_slot`  ↦ one pass of the `@asynccontextmanager` protocol through
  the retry loop of the `acquire_slot` generator.  The generator's only
  interface is `async with` (its docstring, `call_llm.py` and the tests all
  use it that way), so the caller's unit of work — the with-body — executes
  exactly once (`AttemptOutcome`); `__aexit__` then resumes the generator
  at the `yield`, and the generator either stops (success, or a re-raise
  after cleanup) or — on a retryable failure with attempts remaining —
  sleeps, admits a slot for attempt 2 and yields a second time, whereupon
  `contextlib` raises `RuntimeError("generator didn't stop")` (resp.
  `"generator didn't stop after athrow()"`) without ever re-running the
  body.  The capacity-gate poll loop (`_wait_for_capacity`) only blocks;
  the state mutation of an admission is `wait_before_call_if_needed`.  Python exception classes are abstracted to
  the two facts the handlers test: identity of the class and whether it is a
  subclass of `Exception` (`asyncio.CancelledError` is a `BaseException` but
  *not* an `Exception` on Python ≥ 3.8).  The run returns the emitted event
  trace (admissions, confirmations, cleanups, back-off sleeps), the exit of
  the orchestration, and the final controller state.
-/

/-- Ledger entry: one record of the `records` deque
(`CallRecord` dataclass, token_controller.py lines 11-18).
`estimate = true` is a reservation written at admission time,
`estimate = false` a confirmed record carrying actual usage. -/
structure CallRecord where
  id : String
  input_tokens : Nat
  output_tokens : Nat
  timestamp : ℚ
  estimate : Bool
deriving DecidableEq

/-- The mutable state of one `TokenController`:
`records`, `_tpm_counter`, `_rpm_counter`, the keys of `in_flight`, and the
number of permits currently available in the concurrency semaphore
(initially `max_concurrent`; `acquire` is `-1`, `release` is `+1`). -/
structure ControllerState where
  records : List CallRecord
  tpm_counter : Int
  rpm_counter : Int
  in_flight : List String
  sem_available : Int
deriving DecidableEq

/-- `_default_estimator` (lines 133-135): `max(1, len(prompt) // 4 + 10)`.
Note `//` is Python floor division, which is `Nat` division here. -/
def _default_estimator (prompt : String) : Nat :=
  max 1 (prompt.length / 4 + 10)

/-- Follows the spec's words, for comparison with `_default_estimator`:
"default: `max(1, ceil(len(prompt)/4) + 10)`" — a *ceiling* division. -/
def spec_ceil_estimator (prompt : String) : Nat :=
  max 1 ((prompt.length + 3) / 4 + 10)

/-- `required_tokens = input_est + max_output_token`
(line 219 of `wait_before_call_if_needed`). -/
def required_tokens (estimator : String → Nat) (prompt : String)
    (max_output_token : Nat) : Nat :=
  estimator prompt + max_output_token

/-- The `while` loop of `_cleanup_expired` (lines 150-163): pop records off
the front while the front record's `timestamp < cutoff_time`; popped
estimates are collected (in order) to be re-attached at the front, popped
confirmed records accumulate the TPM decrement (sum of `input_tokens +
output_tokens`) and the RPM decrement (one per record).  Returns
`(kept estimates, remaining records, tpm decrement, rpm decrement)`. -/
def sweepStep (cutoff : ℚ) : List CallRecord → List CallRecord × List CallRecord × Int × Nat
  | [] => ([], [], 0, 0)
  | r :: rs =>
      if r.timestamp < cutoff then
        let rest := sweepStep cutoff rs
        if r.estimate then
          (r :: rest.1, rest.2.1, rest.2.2.1, rest.2.2.2)
        else
          (rest.1, rest.2.1, rest.2.2.1 + ((r.input_tokens + r.output_tokens : Nat) : Int),
            rest.2.2.2 + 1)
      else ([], r :: rs, 0, 0)

/-- `_cleanup_expired` (lines 141-168), the expiry sweep, with the instant
`now` (`time.monotonic()` in the source) passed in: `cutoff_time = now - 60`;
skipped estimates are put back at the front (`extendleft(reversed(...))`
restores their original order), and the aggregates are decremented by the
removed confirmed records' contributions. -/
def _cleanup_expired (now : ℚ) (st : ControllerState) : ControllerState :=
  let cutoff := now - 60
  let res := sweepStep cutoff st.records
  { records := res.1 ++ res.2.1
    tpm_counter := st.tpm_counter - res.2.2.1
    rpm_counter := st.rpm_counter - (res.2.2.2 : Int)
    in_flight := st.in_flight
    sem_available := st.sem_available }

/-- `wait_before_call_if_needed` (lines 211-245), the state effect of an
admission once the capacity gate has passed: acquire one permit, append the
estimate record, bump both aggregates by the reservation, and register the
task in `in_flight`.  The generated `call_id` and the instant are parameters. -/
def wait_before_call_if_needed (estimator : String → Nat) (st : ControllerState)
    (call_id : String) (prompt : String) (max_output_token : Nat) (now : ℚ) :
    ControllerState :=
  let input_est := estimator prompt
  let record : CallRecord := ⟨call_id, input_est, max_output_token, now, true⟩
  { records := st.records ++ [record]
    tpm_counter := st.tpm_counter + ((input_est + max_output_token : Nat) : Int)
    rpm_counter := st.rpm_counter + 1
    in_flight := st.in_flight ++ [call_id]
    sem_available := st.sem_available - 1 }

/-- Error raised by `wait_after_call_if_needed` when no matching estimate
record exists (`ValueError` at line 281; `RecordNotFound` in the spec). -/
inductive ConfirmError where
  | RecordNotFound
deriving DecidableEq

/-- The `for i, rec in enumerate(self.records)` search of
`wait_after_call_if_needed` (lines 263-278): find the first record with
`rec.id == call_id and rec.estimate`, replace it in place by `newRec`, and
report the replaced record's `input_tokens + output_tokens`. -/
def replaceFirstEstimate (call_id : String) (newRec : CallRecord) :
    List CallRecord → Option (List CallRecord × Nat)
  | [] => none
  | r :: rs =>
      if r.id = call_id ∧ r.estimate = true then
        some (newRec :: rs, r.input_tokens + r.output_tokens)
      else
        match replaceFirstEstimate call_id newRec rs with
        | some (rs2, old) => some (r :: rs2, old)
        | none => none

/-- `wait_after_call_if_needed` (lines 247-289): replace the estimate record
by a confirmed record with the actual usage and a fresh timestamp, apply
`token_delta = new_tokens - old_tokens` to the TPM aggregate, drop the id
from `in_flight` and release the permit.  If no matching estimate record is
found the `ValueError` is raised from inside the locked block, *before*
`in_flight.pop` and `semaphore.release`, so on the error path the state is
unchanged. -/
def wait_after_call_if_needed (st : ControllerState) (call_id : String)
    (actual_input_tokens actual_output_tokens : Nat) (now : ℚ) :
    Except ConfirmError ControllerState :=
  let real_record : CallRecord :=
    ⟨call_id, actual_input_tokens, actual_output_tokens, now, false⟩
  match replaceFirstEstimate call_id real_record st.records with
  | none => Except.error ConfirmError.RecordNotFound
  | some (records2, old_tokens) =>
      Except.ok
        { records := records2
          tpm_counter := st.tpm_counter +
            (((actual_input_tokens + actual_output_tokens : Nat) : Int) - (old_tokens : Int))
          rpm_counter := st.rpm_counter
          in_flight := st.in_flight.filter (fun x => x ≠ call_id)
          sem_available := st.sem_available + 1 }

/-- `cleanup_call` (lines 291-308), the abort path: drop every record with
this id, reverse each dropped record's aggregate contribution, pop the id
from `in_flight`, and release the permit only if the id was in flight
(`was_in_flight`); otherwise the call is a no-op. -/
def cleanup_call (st : ControllerState) (call_id : String) : ControllerState :=
  let matching := st.records.filter (fun r => r.id = call_id)
  { records := st.records.filter (fun r => r.id ≠ call_id)
    tpm_counter :=
      matching.foldl
        (fun acc r => acc - ((r.input_tokens + r.output_tokens : Nat) : Int))
        st.tpm_counter
    rpm_counter := st.rpm_counter - (matching.length : Int)
    in_flight := st.in_flight.filter (fun x => x ≠ call_id)
    sem_available :=
      if call_id ∈ st.in_flight then st.sem_available + 1 else st.sem_available }

/-- A Python exception value, abstracted to the two facts the `except`
clauses of `acquire_slot` test: which class it is (`tag`) and whether the
class derives from `Exception` (`isException`).  `asyncio.CancelledError`
derives from `BaseException` but not from `Exception` on Python ≥ 3.8, so it
carries `isException = false`. -/
structure Exc where
  isException : Bool
  tag : Nat
deriving DecidableEq

/-- The `RuntimeError` raised at lines 367-371 when the unit of work returns
with `ctx.has_result` false (`ResultNotSet` in the spec's taxonomy). -/
def resultNotSetExc : Exc := ⟨true, 1⟩

/-- The `ValueError` raised by `wait_after_call_if_needed` when no matching
estimate record exists (`RecordNotFound` in the spec's taxonomy). -/
def recordNotFoundExc : Exc := ⟨true, 2⟩

/-- The `RuntimeError` raised by `RequestContext.set_result` after context
exit (line 57). -/
def ctxExitedExc : Exc := ⟨true, 3⟩

/-- The `RuntimeError("Unexpected retry logic error")` of the for-else arm
(line 420), reachable only with `max_attempts = 0`. -/
def retryLogicErrorExc : Exc := ⟨true, 4⟩

/-- The `RuntimeError` raised by `contextlib`'s
`_AsyncGeneratorContextManager.__aexit__` when the `acquire_slot` generator
yields a second time instead of stopping: `"generator didn't stop"` when
the with-body returned normally (generator resumed via `asend`),
`"generator didn't stop after athrow()"` when the body raised (resumed via
`athrow`).  It is raised in the caller's frame, so no handler inside the
generator sees it. -/
def generatorDidntStopExc : Exc := ⟨true, 5⟩

/-- A `ConnectionError`: an `Exception` subclass listed in the default
`retry_exceptions` tuple. -/
def connectionError : Exc := ⟨true, 10⟩

/-- `asyncio.CancelledError`, thrown into a task on cancellation: a
`BaseException` that is *not* an `Exception` (Python ≥ 3.8). -/
def cancelledError : Exc := ⟨false, 11⟩

/-- `RequestContext` (lines 31-80): the per-attempt handle passed to the
caller's unit of work. -/
structure RequestContext (V : Type) where
  call_id : String
  prompt : String
  max_output_token : Nat
  attempt : Nat
  _result : Option V
  _input_tokens : Option Nat
  _output_tokens : Option Nat
  _exited : Bool
deriving DecidableEq

/-- `RequestContext.set_result` (lines 54-60): refuse after exit, otherwise
store the three values.  The `result` argument is `Option V` because Python's
`Any` admits `None`. -/
def RequestContext.set_result (c : RequestContext V)
    (input_tokens output_tokens : Nat) (result : Option V) :
    Except Exc (RequestContext V) :=
  if c._exited then Except.error ctxExitedExc
  else Except.ok { c with
    _input_tokens := some input_tokens
    _output_tokens := some output_tokens
    _result := result }

/-- `RequestContext.has_result` (lines 62-65): `self._result is not None`. -/
def RequestContext.has_result (c : RequestContext V) : Bool :=
  c._result.isSome

/-- The context created at the top of each attempt (lines 345-350), after
`ctx.call_id` has been updated from its `"PENDING"` placeholder to the real
call id (line 355). -/
def freshContext (cid prompt : String) (maxOut attempt : Nat) : RequestContext V :=
  ⟨cid, prompt, maxOut, attempt, none, none, none, false⟩

/-- `RetryConfig` (lines 20-29), abstracted over the exception model:
`retryable e` is `isinstance(e, self.retry_exceptions)`. -/
structure RetryConfigM where
  max_attempts : Nat
  backoff_factor : ℚ
  retryable : Exc → Bool

/-- The default `RetryConfig()`: `max_attempts = 3`, `backoff_factor = 1.0`,
and `retry_exceptions = (asyncio.TimeoutError, ConnectionError, Exception)`.
Because the tuple contains the base class `Exception`, an exception matches
it exactly when it is an `Exception` subclass. -/
def defaultRetryConfig : RetryConfigM :=
  ⟨3, 1, fun e => e.isException⟩

/-- The observable behaviour of the caller's unit of work (the body of
`async with ... as ctx:`), which executes exactly once per `async with`
statement:
`body args` — the block ran to completion, `args = some (i, o, r)` if it
called `ctx.set_result(input_tokens := i, output_tokens := o, result := r)`
and `args = none` if it never called `set_result`;
`raise e` — the block raised (or, for `cancelledError`, the surrounding task
was cancelled and `CancelledError` was thrown at the suspension point). -/
inductive AttemptOutcome (V : Type) where
  | body (args : Option (Nat × Nat × Option V))
  | raise (e : Exc)

/-- One entry of the observable event trace of an `acquire_slot` run. -/
inductive Event where
  | admission (call_id : String)
  | confirm (call_id : String)
  | cleanup (call_id : String)
  | sleepFor (seconds : ℚ)
deriving DecidableEq

/-- How an `acquire_slot` orchestration ends: the loop broke after a
confirmed attempt (the caller keeps the context, whose `_result` it reads),
or an exception propagated out of the context manager. -/
inductive RunExit (V : Type) where
  | completed (attempt : Nat) (ctx : RequestContext V)
  | raised (e : Exc)
deriving DecidableEq

/-- The `acquire_slot` context manager (lines 312-420) as exercised through
its only interface, `async with`.  `__aenter__` runs the generator to the
first `yield`: attempt 1 admits a slot (`wait_before_call_if_needed`).  The
with-body then executes exactly once; its outcome `out` re-enters the
generator at the `yield` (`asend` on a normal return, `athrow` on an
exception).  The generator then
* confirms (`wait_after_call_if_needed`) and breaks on success — the
  generator stops and the exit is `completed`;
* on an exception matching `except config.retry_exceptions` with no
  attempts remaining, or matching only `except Exception`, cleans up the
  slot and re-raises — the generator stops and the exception propagates;
* on an exception matching neither clause (`CancelledError`), propagates
  it with no handler and no cleanup;
* on an exception matching `except config.retry_exceptions` with attempts
  remaining, cleans up, sleeps `backoff_factor * 2 ** (1 - 1)`, admits a
  slot for attempt 2 and reaches `yield` again.  A generator resumed by
  `__aexit__` must stop, so on this second yield `contextlib` raises
  `RuntimeError("generator didn't stop")` (resp. `"generator didn't stop
  after athrow()"`): the with-body is never re-run and attempt 2's freshly
  admitted slot is never cleaned up.  Attempts beyond 2, and their back-off
  sleeps, are unreachable.
With `max_attempts = 0` the `for` loop body never runs and the for-else arm
raises `RuntimeError("Unexpected retry logic error")` inside `__aenter__`,
before any admission.  Returns the emitted event trace, the exit, and the
final controller state. -/
def acquire_slot (cfg : RetryConfigM) (estimator : String → Nat)
    (out : AttemptOutcome V) (prompt : String) (maxOut : Nat)
    (ids : Nat → String) (tm : Nat → ℚ) (st : ControllerState) :
    List Event × RunExit V × ControllerState :=
  if cfg.max_attempts = 0 then ([], RunExit.raised retryLogicErrorExc, st)
  else
    let cid := ids 1
    let st1 := wait_before_call_if_needed estimator st cid prompt maxOut (tm 1)
    let attempt : Except Exc (RequestContext V × ControllerState) :=
      match out with
      | AttemptOutcome.raise e => Except.error e
      | AttemptOutcome.body none =>
          -- the unit of work returned without calling set_result:
          -- ctx.has_result is false, the RuntimeError of line 367 is raised
          Except.error resultNotSetExc
      | AttemptOutcome.body (some (i, o, r)) =>
          match (freshContext cid prompt maxOut 1).set_result i o r with
          | Except.error _ => Except.error ctxExitedExc
          | Except.ok c =>
              if c.has_result then
                match wait_after_call_if_needed st1 cid i o (tm 1) with
                | Except.ok st2 => Except.ok (c, st2)
                | Except.error _ => Except.error recordNotFoundExc
              else Except.error resultNotSetExc
    match attempt with
    | Except.ok (c, st2) =>
        ([Event.admission cid, Event.confirm cid], RunExit.completed 1 c, st2)
    | Except.error e =>
        if cfg.retryable e then
          let st2 := cleanup_call st1 cid
          if 1 < cfg.max_attempts then
            let cid2 := ids 2
            let st3 := wait_before_call_if_needed estimator st2 cid2 prompt maxOut (tm 2)
            ([Event.admission cid, Event.cleanup cid,
                Event.sleepFor (cfg.backoff_factor * 2 ^ (1 - 1)),
                Event.admission cid2],
              RunExit.raised generatorDidntStopExc, st3)
          else
            ([Event.admission cid, Event.cleanup cid], RunExit.raised e, st2)
        else if e.isException then
          ([Event.admission cid, Event.cleanup cid], RunExit.raised e, cleanup_call st1 cid)
        else
          ([Event.admission cid], RunExit.raised e, st1)

/-- Number of `cleanup_call` invocations recorded in a trace. -/
def countCleanups (evs : List Event) : Nat :=
  (evs.filter fun e =>
    match e with
    | Event.cleanup _ => true
    | _ => false).length

/-- Sum of `input_tokens + output_tokens` over a list of records. -/
def sumTokens : List CallRecord → Int
  | [] => 0
  | r :: rs => ((r.input_tokens + r.output_tokens : Nat) : Int) + sumTokens rs

/-- A controller fresh out of `__init__` with `max_concurrent = 2`. -/
def emptyState : ControllerState := ⟨[], 0, 0, [], 2⟩

/-- Call ids for the scenario runs: attempt `k` gets id `toString k`. -/
def natIds : Nat → String := fun k => toString k

/-- A clock for the scenario runs (the instants are irrelevant to the
retry-loop claims). -/
def zeroClock : Nat → ℚ := fun _ => 0

/-- The C1 unit of work: the surrounding task is cancelled during the
body, so `CancelledError` is thrown at the yield point. -/
def c1out : AttemptOutcome Nat := AttemptOutcome.raise cancelledError

/-- The C1 scenario run: default retry config, admission succeeds, then the
task is cancelled inside the caller's block. -/
def c1run : List Event × RunExit Nat × ControllerState :=
  acquire_slot defaultRetryConfig _default_estimator c1out "p" 50 natIds zeroClock emptyState

/-- The C2 unit of work: the body returns normally without ever calling
`set_result`. -/
def c2out : AttemptOutcome Nat := AttemptOutcome.body none

/-- The C2 scenario run: ResultNotSet under the default retry config
(`max_attempts = 3`). -/
def c2run : List Event × RunExit Nat × ControllerState :=
  acquire_slot defaultRetryConfig _default_estimator c2out "p" 50 natIds zeroClock emptyState

/-- A retry config with a single attempt (`RetryConfig(max_attempts=1)`,
default exception tuple). -/
def oneAttemptConfig : RetryConfigM := ⟨1, 1, fun e => e.isException⟩

/-- The C10 unit of work: `set_result` is called, but with `result=None`. -/
def c10out : AttemptOutcome Nat := AttemptOutcome.body (some (3, 4, none))

/-- The C10 scenario run. -/
def c10run : List Event × RunExit Nat × ControllerState :=
  acquire_slot oneAttemptConfig _default_estimator c10out "p" 20 natIds zeroClock emptyState

/-- The C9 unit of work: the body's single execution raises a retryable
`ConnectionError`. -/
def c9out : AttemptOutcome Nat := AttemptOutcome.raise connectionError

/-- The C9 scenario run: `max_attempts = 3`, `backoff_factor = 1.0`,
retryable failure on the only body execution. -/
def c9run : List Event × RunExit Nat × ControllerState :=
  acquire_slot defaultRetryConfig _default_estimator c9out "p" 50 natIds zeroClock emptyState

/-- C1: cancellation delivered during the unit of work is a `BaseException`
that matches neither `except config.retry_exceptions` nor `except
Exception`, so the orchestration propagates it WITHOUT ever invoking
`cleanup_call` for the admitted slot: the event trace of the run holds the
admission and no cleanup, the estimate ledger entry is still in the ledger,
the id is still registered in `in_flight`, and the acquired permit is not
released (`sem_available` stays decremented).  This exhibits the exit path
on which the code violates the claim that every exit path of `acquire_slot`
invokes `cleanup_call` exactly once for an admitted, unconfirmed slot. -/
theorem c1_cancellation_skips_cleanup :
    c1run.1 = [Event.admission "1"] ∧
    countCleanups c1run.1 = 0 ∧
    c1run.2.1 = RunExit.raised cancelledError ∧
    c1run.2.2.records = [⟨"1", 10, 50, 0, true⟩] ∧
    c1run.2.2.in_flight = ["1"] ∧
    c1run.2.2.sem_available = emptyState.sem_available - 1 :=
  ⟨rfl, rfl, rfl, rfl, rfl, rfl⟩

/-- C2 counterexample: under the default retry configuration the
ResultNotSet fault is NOT treated as an unrecoverable fault and the claimed
propagation does not happen.  The `RuntimeError` of line 367 is matched by
`except config.retry_exceptions` (the default tuple contains `Exception`),
so the orchestrator enters the retry arm: it cleans up attempt 1's slot and
admits a slot for a further attempt, and the error that reaches the caller
is `contextlib`'s `"generator didn't stop"` `RuntimeError` — not the
ResultNotSet fault the claim says propagates. -/
theorem c2_counterexample :
    c2run.2.1 ≠ RunExit.raised resultNotSetExc ∧
    c2run.2.1 = RunExit.raised generatorDidntStopExc ∧
    Event.admission "2" ∈ c2run.1 ∧
    countCleanups c2run.1 = 1 :=
  ⟨by decide, rfl, by decide, rfl⟩

/-- C2 amended: under the default retry configuration the ResultNotSet
fault is classified as retryable (the default `retry_exceptions` tuple
contains `Exception`), so the orchestrator cleans up the attempt-1 slot,
sleeps the 1-second backoff and admits a fresh slot for attempt 2; because
an `async with` body cannot be re-run, the generator's second yield makes
`contextlib` raise `RuntimeError("generator didn't stop")`, which is what
propagates to the caller — the unit of work is never re-executed, the
ResultNotSet error itself never propagates, and attempt 2's slot is left
admitted: its estimate ledger entry, aggregate contributions, `in_flight`
registration and permit are all still held on exit. -/
theorem c2_amended :
    c2run.1 = [Event.admission "1", Event.cleanup "1", Event.sleepFor 1,
      Event.admission "2"] ∧
    c2run.2.1 = RunExit.raised generatorDidntStopExc ∧
    c2run.2.2 = ⟨[⟨"2", 10, 50, 0, true⟩], 60, 1, ["2"], 1⟩ := by
  have e1 : defaultRetryConfig.backoff_factor * 2 ^ (1 - 1) = (1 : ℚ) := by
    norm_num [defaultRetryConfig]
  have h : c2run.1 = [Event.admission "1", Event.cleanup "1",
      Event.sleepFor (defaultRetryConfig.backoff_factor * 2 ^ (1 - 1)),
      Event.admission "2"] := rfl
  rw [e1] at h
  exact ⟨h, rfl, rfl⟩

/-- C8 counterexample: the default estimator uses Python floor division
(`len(prompt) // 4`), not the ceiling the spec states.  On the one-character
prompt "a" the code returns `max(1, 0 + 10) = 10` while the spec's formula
`max(1, ceil(1/4) + 10)` gives 11, and `required_tokens` for
`max_output_token = 50` is `10 + 50 = 60` rather than 61. -/
theorem c8_counterexample :
    _default_estimator "a" = 10 ∧ spec_ceil_estimator "a" = 11 ∧
    _default_estimator "a" ≠ spec_ceil_estimator "a" ∧
    required_tokens _default_estimator "a" 50 = 60 := by
  decide

/-- C8 amended: the default estimator returns
`max(1, len(prompt) // 4 + 10)` — floor division — and the `required_tokens`
used for admission is this estimate plus the requested max output tokens;
the admission bumps the TPM aggregate by exactly `required_tokens` and
appends the estimate entry carrying the two addends. -/
theorem c8_amended (prompt : String) (m : Nat) (st : ControllerState)
    (cid : String) (t : ℚ) :
    _default_estimator prompt = max 1 (prompt.length / 4 + 10) ∧
    required_tokens _default_estimator prompt m = max 1 (prompt.length / 4 + 10) + m ∧
    (wait_before_call_if_needed _default_estimator st cid prompt m t).tpm_counter =
      st.tpm_counter + ((required_tokens _default_estimator prompt m : Nat) : Int) ∧
    (wait_before_call_if_needed _default_estimator st cid prompt m t).records =
      st.records ++ [⟨cid, _default_estimator prompt, m, t, true⟩] :=
  ⟨rfl, rfl, rfl, rfl⟩

/-- C10: `has_result` tests the stored result against `None`
(`self._result is not None`), so `set_result` with `result=None` leaves
`has_result` false, and an attempt whose unit of work does exactly that hits
the result-never-set `RuntimeError` — under a single-attempt config the
orchestration aborts the slot and raises the fault even though `set_result`
was called; a caller can never deliver `None` as a successful result. -/
theorem c10_set_result_none (c : RequestContext Nat) (i o : Nat)
    (h : c._exited = false) :
    (∃ c2, c.set_result i o none = Except.ok c2 ∧ c2.has_result = false) ∧
    (∀ d : RequestContext Nat, d.has_result = d._result.isSome) ∧
    c10run.2.1 = RunExit.raised resultNotSetExc ∧
    c10run.1 = [Event.admission "1", Event.cleanup "1"] := by
  refine ⟨⟨{ c with _input_tokens := some i, _output_tokens := some o, _result := none },
    ?_, rfl⟩, fun d => rfl, rfl, rfl⟩
  simp [RequestContext.set_result, h]

/-- Witness for C10 at a concrete context. -/
theorem c10_set_result_none_witness :
    (∃ c2, (⟨"w", "q", 5, 1, none, none, none, false⟩ : RequestContext Nat).set_result 9 8 none
        = Except.ok c2 ∧ c2.has_result = false) ∧
    (∀ d : RequestContext Nat, d.has_result = d._result.isSome) ∧
    c10run.2.1 = RunExit.raised resultNotSetExc ∧
    c10run.1 = [Event.admission "1", Event.cleanup "1"] :=
  c10_set_result_none ⟨"w", "q", 5, 1, none, none, none, false⟩ 9 8 rfl

/-- C9: the claimed retry scenario is impossible through `acquire_slot`;
this theorem evaluates the embedding at the failing input.  With
`max_attempts = 3`, `backoff_factor = 1.0` and the unit of work raising a
retryable `ConnectionError` on its single execution, the orchestrator
cleans up once, sleeps 1s (the `k = 1` backoff `backoff_factor * 2 ** 0`,
the only reachable one), admits a slot for attempt 2 — and then the
generator's second yield makes `contextlib` raise
`RuntimeError("generator didn't stop after athrow()")`: `cleanup_call` runs
once, not twice; there is no 2-second sleep and no attempt-3 result; and
attempt 2's slot (estimate ledger entry, `in_flight` registration and
permit) leaks. -/
theorem c9_retry_impossible :
    c9run.1 = [Event.admission "1", Event.cleanup "1", Event.sleepFor 1,
      Event.admission "2"] ∧
    countCleanups c9run.1 = 1 ∧
    c9run.2.1 = RunExit.raised generatorDidntStopExc ∧
    c9run.2.2.records = [⟨"2", 10, 50, 0, true⟩] ∧
    c9run.2.2.in_flight = ["2"] ∧
    c9run.2.2.sem_available = emptyState.sem_available - 1 := by
  have e1 : defaultRetryConfig.backoff_factor * 2 ^ (1 - 1) = (1 : ℚ) := by
    norm_num [defaultRetryConfig]
  have h : c9run.1 = [Event.admission "1", Event.cleanup "1",
      Event.sleepFor (defaultRetryConfig.backoff_factor * 2 ^ (1 - 1)),
      Event.admission "2"] := rfl
  rw [e1] at h
  exact ⟨h, rfl, rfl, rfl, rfl, rfl⟩

/-- The sweep loop does nothing when the front record (if any) is not older
than the cutoff. -/
lemma sweepStep_stop (cutoff : ℚ) (l : List CallRecord)
    (h : ∀ r, l.head? = some r → ¬ r.timestamp < cutoff) :
    sweepStep cutoff l = ([], l, 0, 0) := by
  cases l with
  | nil => rfl
  | cons r rs => rw [sweepStep, if_neg (h r rfl)]

/-- Behaviour of the sweep loop on a split `p ++ rest` where every record of
`p` is older than the cutoff and the front of `rest` (if any) is not: the
loop consumes exactly `p`, keeps its estimates, and accumulates the
decrements from its confirmed records. -/
lemma sweepStep_append (cutoff : ℚ) (p rest : List CallRecord)
    (hp : ∀ r ∈ p, r.timestamp < cutoff)
    (hrest : ∀ r, rest.head? = some r → ¬ r.timestamp < cutoff) :
    sweepStep cutoff (p ++ rest) =
      (p.filter (fun r => r.estimate), rest,
        sumTokens (p.filter (fun r => !r.estimate)),
        (p.filter (fun r => !r.estimate)).length) := by
  induction p with
  | nil => simpa using sweepStep_stop cutoff rest hrest
  | cons r rs ih =>
      have hr : r.timestamp < cutoff := hp r (by simp)
      have ihh := ih (fun x hx => hp x (by simp [hx]))
      rw [List.cons_append, sweepStep, if_pos hr]
      cases hre : r.estimate with
      | true => simp [ihh, hre]
      | false =>
          simp [ihh, hre, sumTokens]
          omega

/-- Every run of the sweep loop consumes an initial segment `p` of the
records: the kept estimates are `p`'s estimates and the decrements are the
contributions of `p`'s confirmed records. -/
lemma sweepStep_split (cutoff : ℚ) (l : List CallRecord) :
    ∃ p, l = p ++ (sweepStep cutoff l).2.1 ∧
      (sweepStep cutoff l).1 = p.filter (fun r => r.estimate) ∧
      (sweepStep cutoff l).2.2.1 = sumTokens (p.filter (fun r => !r.estimate)) ∧
      (sweepStep cutoff l).2.2.2 = (p.filter (fun r => !r.estimate)).length := by
  induction l with
  | nil => exact ⟨[], rfl, rfl, rfl, rfl⟩
  | cons r rs ih =>
      by_cases hr : r.timestamp < cutoff
      · obtain ⟨p, hp1, hp2, hp3, hp4⟩ := ih
        refine ⟨r :: p, ?_, ?_, ?_, ?_⟩ <;>
          rw [sweepStep, if_pos hr] <;>
          cases hre : r.estimate <;>
          simp [hre, hp2, hp3, hp4, sumTokens] <;>
          first
            | (exact hp1)
            | omega
      · refine ⟨[], ?_, ?_, ?_, ?_⟩ <;> rw [sweepStep, if_neg hr] <;> rfl

/-- Filtering the estimates out of an already-estimates-only list changes
nothing. -/
lemma filter_est_idem (l : List CallRecord) :
    (l.filter (fun r => r.estimate)).filter (fun r => r.estimate) =
      l.filter (fun r => r.estimate) := by
  induction l with
  | nil => rfl
  | cons r rs ih => cases hre : r.estimate <;> simp [hre, ih]

/-- An estimates-only list holds no confirmed record. -/
lemma filter_est_not_nil (l : List CallRecord) :
    (l.filter (fun r => r.estimate)).filter (fun r => !r.estimate) = [] := by
  induction l with
  | nil => rfl
  | cons r rs ih => cases hre : r.estimate <;> simp [hre, ih]

/-- A confirmed record with timestamp 100: young enough at `now = 70` to
stop the sweep loop at the front of the deque. -/
def c3recA : CallRecord := ⟨"A", 1, 1, 100, false⟩

/-- A confirmed record with timestamp 0: expired at `now = 70` (its age
exceeds the 60-second window), but positioned behind `c3recA`.  Such an
arrangement is reachable because `wait_after_call_if_needed` rewrites a
record in place with a fresh timestamp. -/
def c3recB : CallRecord := ⟨"B", 2, 3, 0, false⟩

/-- A ledger state holding the young confirmed record in front of the
expired one. -/
def c3state : ControllerState := ⟨[c3recA, c3recB], 7, 2, [], 2⟩

/-- C3 counterexample: `_cleanup_expired` only pops from the front of the
deque and stops at the first record not older than the cutoff, so the
expired confirmed record `c3recB` — older than 60 seconds at `now = 70` but
sitting behind the younger `c3recA` — survives the sweep, and neither
aggregate is decremented.  This refutes the claim that the sweep removes
every expired confirmed entry regardless of its position. -/
theorem c3_counterexample :
    c3recB ∈ c3state.records ∧ c3recB.estimate = false ∧
    c3recB.timestamp < (70 : ℚ) - 60 ∧
    (_cleanup_expired 70 c3state).records = c3state.records ∧
    (_cleanup_expired 70 c3state).tpm_counter = c3state.tpm_counter ∧
    (_cleanup_expired 70 c3state).rpm_counter = c3state.rpm_counter := by
  have hs : sweepStep ((70 : ℚ) - 60) [c3recA, c3recB] = ([], [c3recA, c3recB], 0, 0) := by
    rw [sweepStep, if_neg (by norm_num [c3recA])]
  refine ⟨by simp [c3state], rfl, by norm_num [c3recB], ?_, ?_, ?_⟩ <;>
    simp [_cleanup_expired, c3state, hs]

/-- C3 amended: `sweep(now)` removes exactly the confirmed entries of the
longest initial segment of the record collection whose entries all carry
timestamps more than 60 seconds before `now` (estimates inside that segment
are skipped and retained in order); the scan stops at the first younger
entry, so expired confirmed entries behind it are not removed.  The TPM
aggregate is decremented by each removed entry's input-plus-output total
and the RPM aggregate by one per removed entry. -/
theorem c3_amended (st : ControllerState) (now : ℚ) (p rest : List CallRecord)
    (hsplit : st.records = p ++ rest)
    (hp : ∀ r ∈ p, r.timestamp < now - 60)
    (hrest : ∀ r, rest.head? = some r → ¬ r.timestamp < now - 60) :
    (_cleanup_expired now st).records = p.filter (fun r => r.estimate) ++ rest ∧
    (_cleanup_expired now st).tpm_counter =
      st.tpm_counter - sumTokens (p.filter (fun r => !r.estimate)) ∧
    (_cleanup_expired now st).rpm_counter =
      st.rpm_counter - ((p.filter (fun r => !r.estimate)).length : Int) := by
  have h := sweepStep_append (now - 60) p rest hp hrest
  refine ⟨?_, ?_, ?_⟩ <;> simp [_cleanup_expired, hsplit, h]

/-- An estimate record, expired in age but never removable by the sweep. -/
def c3wE : CallRecord := ⟨"E", 1, 2, 0, true⟩

/-- A confirmed record with timestamp 5, expired at `now = 70`. -/
def c3wC : CallRecord := ⟨"C", 3, 4, 5, false⟩

/-- A confirmed record with timestamp 50, not expired at `now = 70`. -/
def c3wD : CallRecord := ⟨"D", 6, 7, 50, false⟩

/-- A ledger whose expired initial segment is `[c3wE, c3wC]`. -/
def c3wState : ControllerState := ⟨[c3wE, c3wC, c3wD], 100, 9, [], 2⟩

/-- Witness for the amended C3: sweeping `c3wState` at `now = 70` drops the
expired confirmed record `c3wC` (7 tokens, one request), keeps the expired
estimate `c3wE` and the young confirmed `c3wD`. -/
theorem c3_amended_witness :
    (_cleanup_expired 70 c3wState).records = [c3wE, c3wD] ∧
    (_cleanup_expired 70 c3wState).tpm_counter = 93 ∧
    (_cleanup_expired 70 c3wState).rpm_counter = 8 := by
  have h := c3_amended c3wState 70 [c3wE, c3wC] [c3wD] rfl
    (by intro r hr
        simp only [List.mem_cons, List.not_mem_nil, or_false] at hr
        rcases hr with h | h <;> subst h <;> norm_num [c3wE, c3wC])
    (by intro r hr
        simp only [List.head?] at hr
        injection hr with h
        rw [← h]
        norm_num [c3wD])
  simpa [c3wE, c3wC, c3wD, sumTokens] using h

/-- C4: the expiry sweep removes no estimate entry — the estimate entries
(and their order) are exactly preserved — and the aggregates change only by
the contributions of the removed confirmed entries: the confirmed entries
of the pre-sweep ledger are the removed ones followed by the surviving
ones, with TPM decremented by the removed entries' token sum and RPM by
their count. -/
theorem c4_sweep_preserves_estimates (now : ℚ) (st : ControllerState) :
    ∃ removed,
      (_cleanup_expired now st).records.filter (fun r => r.estimate) =
        st.records.filter (fun r => r.estimate) ∧
      st.records.filter (fun r => !r.estimate) =
        removed ++ (_cleanup_expired now st).records.filter (fun r => !r.estimate) ∧
      (_cleanup_expired now st).tpm_counter = st.tpm_counter - sumTokens removed ∧
      (_cleanup_expired now st).rpm_counter = st.rpm_counter - (removed.length : Int) := by
  obtain ⟨p, hp1, hp2, hp3, hp4⟩ := sweepStep_split (now - 60) st.records
  have hrec : (_cleanup_expired now st).records =
      (sweepStep (now - 60) st.records).1 ++ (sweepStep (now - 60) st.records).2.1 := rfl
  have htpm : (_cleanup_expired now st).tpm_counter =
      st.tpm_counter - (sweepStep (now - 60) st.records).2.2.1 := rfl
  have hrpm : (_cleanup_expired now st).rpm_counter =
      st.rpm_counter - ((sweepStep (now - 60) st.records).2.2.2 : Int) := rfl
  refine ⟨p.filter (fun r => !r.estimate), ?_, ?_, ?_, ?_⟩
  · rw [hrec, List.filter_append, hp2, filter_est_idem]
    conv_rhs => rw [hp1]
    rw [List.filter_append]
  · rw [hrec, List.filter_append, hp2, filter_est_not_nil]
    conv_lhs => rw [hp1]
    rw [List.filter_append]
    simp
  · rw [htpm, hp3]
  · rw [hrpm, hp4]

/-- Replacement search on a ledger whose existing records all carry other
ids, followed by a fresh estimate entry: the search walks past the older
records and replaces the appended estimate, reporting its token total. -/
lemma replaceFirstEstimate_append_fresh (cid : String) (n e : CallRecord)
    (l : List CallRecord) (h : ∀ r ∈ l, r.id ≠ cid)
    (he : e.id = cid) (hest : e.estimate = true) :
    replaceFirstEstimate cid n (l ++ [e]) =
      some (l ++ [n], e.input_tokens + e.output_tokens) := by
  induction l with
  | nil => simp [replaceFirstEstimate, he, hest]
  | cons r rs ih =>
      have hr : r.id ≠ cid := h r (by simp)
      have ihh := ih (fun x hx => h x (by simp [hx]))
      rw [List.cons_append, replaceFirstEstimate, if_neg (fun hc => hr hc.1), ihh]
      rfl

/-- C5: admitting a request with a fresh id (estimate entry carrying
`E = estimated input + max output` tokens) and then confirming it with
actual usage `A = a + b` succeeds and changes the TPM aggregate by exactly
`A − E` relative to the post-admission state — so the net aggregate effect
of admit-then-confirm is exactly `A` — while the confirm step leaves the
RPM aggregate unchanged. -/
theorem c5_confirm_delta (st : ControllerState) (estT : String → Nat)
    (cid prompt : String) (m a b : Nat) (t1 t2 : ℚ)
    (h : ∀ r ∈ st.records, r.id ≠ cid) :
    ∃ st2,
      wait_after_call_if_needed
          (wait_before_call_if_needed estT st cid prompt m t1) cid a b t2 = Except.ok st2 ∧
      st2.tpm_counter =
        (wait_before_call_if_needed estT st cid prompt m t1).tpm_counter +
          (((a + b : Nat) : Int) - ((estT prompt + m : Nat) : Int)) ∧
      st2.tpm_counter = st.tpm_counter + ((a + b : Nat) : Int) ∧
      st2.rpm_counter = (wait_before_call_if_needed estT st cid prompt m t1).rpm_counter := by
  have hrep := replaceFirstEstimate_append_fresh cid
    ⟨cid, a, b, t2, false⟩ ⟨cid, estT prompt, m, t1, true⟩ st.records h rfl rfl
  simp only [wait_before_call_if_needed, wait_after_call_if_needed]
  rw [hrep]
  refine ⟨_, rfl, ?_, ?_, ?_⟩
  · rfl
  · simp
  · rfl

/-- A ledger holding one confirmed record under an unrelated id. -/
def c5stW : ControllerState := ⟨[⟨"z", 4, 4, 0, false⟩], 8, 1, ["z"], 2⟩

/-- Witness for C5: admit id "x" with prompt "hello" (default estimate 11)
and max output 9, then confirm with actual usage 6 + 7. -/
theorem c5_confirm_delta_witness :
    ∃ st2,
      wait_after_call_if_needed
          (wait_before_call_if_needed _default_estimator c5stW "x" "hello" 9 1) "x" 6 7 2 =
        Except.ok st2 ∧
      st2.tpm_counter =
        (wait_before_call_if_needed _default_estimator c5stW "x" "hello" 9 1).tpm_counter +
          (((6 + 7 : Nat) : Int) - ((_default_estimator "hello" + 9 : Nat) : Int)) ∧
      st2.tpm_counter = c5stW.tpm_counter + ((6 + 7 : Nat) : Int) ∧
      st2.rpm_counter =
        (wait_before_call_if_needed _default_estimator c5stW "x" "hello" 9 1).rpm_counter :=
  c5_confirm_delta c5stW _default_estimator "x" "hello" 9 6 7 1 2 (by decide)

/-- The replacement search fails on a ledger with no estimate record under
the id. -/
lemma replaceFirstEstimate_none (cid : String) (n : CallRecord) (l : List CallRecord)
    (h : ∀ r ∈ l, ¬(r.id = cid ∧ r.estimate = true)) :
    replaceFirstEstimate cid n l = none := by
  induction l with
  | nil => rfl
  | cons r rs ih =>
      rw [replaceFirstEstimate, if_neg (h r (by simp)),
        ih (fun x hx => h x (by simp [hx]))]

/-- Decomposition of a successful replacement search: the ledger splits as
`l1 ++ r :: ltail` with no match in `l1`, `r` the matched estimate record
under the id, the result `l1 ++ n :: ltail`, and the reported token total
`r`'s. -/
lemma replaceFirstEstimate_some (cid : String) (n : CallRecord) :
    ∀ (l l2 : List CallRecord) (old : Nat),
      replaceFirstEstimate cid n l = some (l2, old) →
      ∃ l1 r ltail, l = l1 ++ r :: ltail ∧ l2 = l1 ++ n :: ltail ∧
        (∀ x ∈ l1, ¬(x.id = cid ∧ x.estimate = true)) ∧
        r.id = cid ∧ r.estimate = true ∧ old = r.input_tokens + r.output_tokens := by
  intro l
  induction l with
  | nil => intro l2 old h; simp [replaceFirstEstimate] at h
  | cons r rs ih =>
      intro l2 old h
      rw [replaceFirstEstimate] at h
      by_cases hc : r.id = cid ∧ r.estimate = true
      · rw [if_pos hc] at h
        injection h with h
        injection h with h1 h2
        exact ⟨[], r, rs, rfl, by simp [h1.symm], by simp, hc.1, hc.2, h2.symm⟩
      · rw [if_neg hc] at h
        cases hrec : replaceFirstEstimate cid n rs with
        | none => rw [hrec] at h; exact absurd h (by simp)
        | some pr =>
            rw [hrec] at h
            obtain ⟨rs2, old2⟩ := pr
            injection h with h
            injection h with h1 h2
            obtain ⟨l1, q, ltail, hl1, hl2, hfail, hq1, hq2, hq3⟩ :=
              ih rs2 old2 hrec
            refine ⟨r :: l1, q, ltail, by simp [hl1], ?_, ?_, hq1, hq2, ?_⟩
            · rw [← h1, hl2]; rfl
            · intro x hx
              rcases List.mem_cons.mp hx with hx | hx
              · subst hx; exact hc
              · exact hfail x hx
            · rw [← h2]; exact hq3

/-- C6: `wait_after_call_if_needed` fails with `RecordNotFound` whenever the
ledger holds no estimate entry for the id; in particular it fails after
`cleanup_call` for the same id (abort removes every record of the id), and
it fails on a second confirm (given the per-id uniqueness invariant, the
first confirm leaves only a confirmed record under the id). -/
theorem c6_record_not_found :
    (∀ (st : ControllerState) (cid : String) (a b : Nat) (t : ℚ),
      (∀ r ∈ st.records, ¬(r.id = cid ∧ r.estimate = true)) →
      wait_after_call_if_needed st cid a b t =
        Except.error ConfirmError.RecordNotFound) ∧
    (∀ (st : ControllerState) (cid : String) (a b : Nat) (t : ℚ),
      wait_after_call_if_needed (cleanup_call st cid) cid a b t =
        Except.error ConfirmError.RecordNotFound) ∧
    (∀ (st st2 : ControllerState) (cid : String) (a b a2 b2 : Nat) (t t2 : ℚ),
      (st.records.filter (fun r => r.id = cid)).length ≤ 1 →
      wait_after_call_if_needed st cid a b t = Except.ok st2 →
      wait_after_call_if_needed st2 cid a2 b2 t2 =
        Except.error ConfirmError.RecordNotFound) := by
  have base : ∀ (st : ControllerState) (cid : String) (a b : Nat) (t : ℚ),
      (∀ r ∈ st.records, ¬(r.id = cid ∧ r.estimate = true)) →
      wait_after_call_if_needed st cid a b t =
        Except.error ConfirmError.RecordNotFound := by
    intro st cid a b t h
    rw [wait_after_call_if_needed]
    rw [replaceFirstEstimate_none cid _ st.records h]
  refine ⟨base, ?_, ?_⟩
  · intro st cid a b t
    apply base
    intro r hr
    have : r.id ≠ cid := by
      have hm := List.mem_filter.mp hr
      simpa using hm.2
    exact fun hc => this hc.1
  · intro st st2 cid a b a2 b2 t t2 hlen hok
    rw [wait_after_call_if_needed] at hok
    cases hrep : replaceFirstEstimate cid ⟨cid, a, b, t, false⟩ st.records with
    | none => rw [hrep] at hok; exact absurd hok (by simp)
    | some pr =>
        obtain ⟨l2, old⟩ := pr
        rw [hrep] at hok
        injection hok with hok
        obtain ⟨l1, r, ltail, hl1, hl2, hfail, hr1, hr2, hr3⟩ :=
          replaceFirstEstimate_some cid ⟨cid, a, b, t, false⟩ st.records l2 old hrep
        have hst2rec : st2.records = l2 := by rw [← hok]
        apply base
        intro x hx
        rw [hst2rec, hl2] at hx
        have hfilter : (st.records.filter (fun r => r.id = cid)).length =
            (l1.filter (fun r => r.id = cid)).length + 1 +
            (ltail.filter (fun r => r.id = cid)).length := by
          rw [hl1, List.filter_append]
          simp [hr1, List.length_append]
          omega
        have hl1nil : ∀ y ∈ l1, y.id ≠ cid := by
          intro y hy hyid
          have : (l1.filter (fun r => r.id = cid)).length = 0 := by omega
          have hnil : l1.filter (fun r => r.id = cid) = [] :=
            List.length_eq_zero.mp this
          have : y ∈ l1.filter (fun r => r.id = cid) :=
            List.mem_filter.mpr ⟨hy, by simp [hyid]⟩
          rw [hnil] at this
          simp at this
        have hltnil : ∀ y ∈ ltail, y.id ≠ cid := by
          intro y hy hyid
          have : (ltail.filter (fun r => r.id = cid)).length = 0 := by omega
          have hnil : ltail.filter (fun r => r.id = cid) = [] :=
            List.length_eq_zero.mp this
          have : y ∈ ltail.filter (fun r => r.id = cid) :=
            List.mem_filter.mpr ⟨hy, by simp [hyid]⟩
          rw [hnil] at this
          simp at this
        rcases List.mem_append.mp hx with hx | hx
        · exact fun hc => hl1nil x hx hc.1
        · rcases List.mem_cons.mp hx with hx | hx
          · subst hx; intro hc; simpa using hc.2
          · exact fun hc => hltnil x hx hc.1

/-- A ledger holding exactly one estimate record, under id "x", with the
permit held. -/
def c6stW : ControllerState := ⟨[⟨"x", 10, 20, 0, true⟩], 30, 1, ["x"], 1⟩

/-- The state after confirming "x" on `c6stW` with actual usage 2 + 3. -/
def c6stW2 : ControllerState := ⟨[⟨"x", 2, 3, 1, false⟩], 5, 1, [], 2⟩

/-- Witness for C6: confirm on an empty ledger fails, confirm after abort
fails, and a second confirm after a successful one fails. -/
theorem c6_record_not_found_witness :
    wait_after_call_if_needed emptyState "x" 1 1 0 =
      Except.error ConfirmError.RecordNotFound ∧
    wait_after_call_if_needed (cleanup_call c6stW "x") "x" 1 1 0 =
      Except.error ConfirmError.RecordNotFound ∧
    wait_after_call_if_needed c6stW2 "x" 4 4 2 =
      Except.error ConfirmError.RecordNotFound :=
  ⟨c6_record_not_found.1 emptyState "x" 1 1 0 (by simp [emptyState]),
   c6_record_not_found.2.1 c6stW "x" 1 1 0,
   c6_record_not_found.2.2 c6stW c6stW2 "x" 2 3 4 4 1 2 (by decide) rfl⟩

/-- Field-wise equality of controller states. -/
lemma ControllerState.ext' (x y : ControllerState)
    (h1 : x.records = y.records) (h2 : x.tpm_counter = y.tpm_counter)
    (h3 : x.rpm_counter = y.rpm_counter) (h4 : x.in_flight = y.in_flight)
    (h5 : x.sem_available = y.sem_available) : x = y := by
  cases x
  cases y
  simp_all

/-- C7: `cleanup_call` (abort) is idempotent — running it twice for the
same id produces exactly the state (ledger, aggregates, `in_flight`,
permits) of running it once — and aborting an id that holds no permit and
has no ledger records is a no-op that raises nothing. -/
theorem c7_cleanup_idempotent (st : ControllerState) (cid : String) :
    cleanup_call (cleanup_call st cid) cid = cleanup_call st cid ∧
    ((∀ r ∈ st.records, r.id ≠ cid) → cid ∉ st.in_flight →
      cleanup_call st cid = st) := by
  constructor
  · have hrecs : (cleanup_call st cid).records =
        st.records.filter (fun r => r.id ≠ cid) := rfl
    have hifl : (cleanup_call st cid).in_flight =
        st.in_flight.filter (fun x => x ≠ cid) := rfl
    have hmat : (cleanup_call st cid).records.filter (fun r => r.id = cid) = [] := by
      rw [hrecs]
      refine List.filter_eq_nil_iff.mpr ?_
      intro a ha
      have h2 : a.id ≠ cid := by simpa using (List.mem_filter.mp ha).2
      simp [h2]
    have hnotin : cid ∉ (cleanup_call st cid).in_flight := by
      rw [hifl]
      intro hmem
      have := (List.mem_filter.mp hmem).2
      simp at this
    apply ControllerState.ext'
    · show (cleanup_call st cid).records.filter (fun r => r.id ≠ cid) =
        (cleanup_call st cid).records
      rw [hrecs]
      refine List.filter_eq_self.mpr ?_
      intro a ha
      exact (List.mem_filter.mp ha).2
    · show ((cleanup_call st cid).records.filter (fun r => r.id = cid)).foldl
          (fun acc r => acc - ((r.input_tokens + r.output_tokens : Nat) : Int))
          (cleanup_call st cid).tpm_counter = (cleanup_call st cid).tpm_counter
      rw [hmat]
      rfl
    · show (cleanup_call st cid).rpm_counter -
          (((cleanup_call st cid).records.filter (fun r => r.id = cid)).length : Int) =
          (cleanup_call st cid).rpm_counter
      rw [hmat]
      simp
    · show (cleanup_call st cid).in_flight.filter (fun x => x ≠ cid) =
        (cleanup_call st cid).in_flight
      rw [hifl]
      refine List.filter_eq_self.mpr ?_
      intro a ha
      exact (List.mem_filter.mp ha).2
    · show (if cid ∈ (cleanup_call st cid).in_flight
          then (cleanup_call st cid).sem_available + 1
          else (cleanup_call st cid).sem_available) = (cleanup_call st cid).sem_available
      rw [if_neg hnotin]
  · intro hrec hifl
    have hmat : st.records.filter (fun r => r.id = cid) = [] := by
      refine List.filter_eq_nil_iff.mpr ?_
      intro a ha
      simp [hrec a ha]
    apply ControllerState.ext'
    · show st.records.filter (fun r => r.id ≠ cid) = st.records
      refine List.filter_eq_self.mpr ?_
      intro a ha
      simpa using hrec a ha
    · show (st.records.filter (fun r => r.id = cid)).foldl
          (fun acc r => acc - ((r.input_tokens + r.output_tokens : Nat) : Int))
          st.tpm_counter = st.tpm_counter
      rw [hmat]
      rfl
    · show st.rpm_counter -
          ((st.records.filter (fun r => r.id = cid)).length : Int) = st.rpm_counter
      rw [hmat]
      simp
    · show st.in_flight.filter (fun x => x ≠ cid) = st.in_flight
      refine List.filter_eq_self.mpr ?_
      intro a ha
      have : a ≠ cid := fun h => hifl (h ▸ ha)
      simp [this]
    · show (if cid ∈ st.in_flight then st.sem_available + 1 else st.sem_available) =
        st.sem_available
      rw [if_neg hifl]

/-- A state holding records and permits for ids "y" and "z". -/
def c7stW : ControllerState :=
  ⟨[⟨"y", 1, 2, 0, true⟩, ⟨"z", 3, 4, 5, false⟩], 10, 2, ["y", "z"], 1⟩

/-- A state with no trace of id "y". -/
def c7stE : ControllerState := ⟨[⟨"z", 3, 4, 5, false⟩], 7, 1, ["z"], 1⟩

/-- Witness for C7 at concrete states. -/
theorem c7_cleanup_idempotent_witness :
    cleanup_call (cleanup_call c7stW "y") "y" = cleanup_call c7stW "y" ∧
    cleanup_call c7stE "y" = c7stE :=
  ⟨(c7_cleanup_idempotent c7stW "y").1,
   (c7_cleanup_idempotent c7stE "y").2 (by decide) (by decide)⟩
